import Mathlib

/-
Shallow embedding of the query-generation-and-execution pipeline of
src/app.py: schema introspection (get_schema_info), natural-language-to-SQL
translation (generate_sql), execution (execute_query) and the chat handler
that appends turns to the session transcript.  External collaborators (the
MySQL connection, the completion service) are modelled as function
parameters; a call that can raise is modelled as returning
Except String with the error message playing the role of str(e).
-/

set_option maxRecDepth 4000

namespace AssistFlow

/-- A scalar value inside a database row, as returned by cursor.fetchall(). -/
inductive Value where
  | intV (n : Int)
  | strV (s : String)
  | nullV
deriving DecidableEq

/-- A row of a result set: an ordered tuple of scalars. -/
abbrev Row := List Value

/-- One entry of cursor.description; the code reads only desc[0], the column
name, but the driver also reports a type code. -/
structure ColDesc where
  name : String
  typeCode : Nat
deriving DecidableEq

/-- The observable outcome of a successful cursor.execute: the rows that
fetchall() will return and the optional result descriptor. -/
structure Cursor where
  rows : List Row
  description : Option (List ColDesc)
deriving DecidableEq

/-- The database connection as execute_query sees it: running a SQL string
either yields a cursor or raises, the raise carried as the message str(e). -/
abbrev DbConn := String → Except String Cursor

/-- Database metadata as get_schema_info sees it: SHOW TABLES yields the
first component of each fetched row, and DESCRIBE t yields the first
components of the column rows of t; either call may raise. -/
structure DbMeta where
  showTables : Except String (List String)
  describeTable : String → Except String (List String)

/-- The completion service behind llm(messages): from the formatted prompt
text to the response content, or a raised network/auth/model error. -/
abbrev Llm := String → Except String String

/-! ### Python string helpers: str.strip() and str.strip(chars) -/

/-- The characters removed by str.strip() with no argument (the ASCII
subset of Python whitespace). -/
def pyIsSpaceB (c : Char) : Bool :=
  c = ' ' || c = '\t' || c = '\n' || c = '\r' || c = Char.ofNat 11 || c = Char.ofNat 12

/-- The backtick character, the argument of the second strip in the code. -/
def backtickChar : Char := Char.ofNat 96

/-- Test for the backtick character. -/
def isBacktickB (c : Char) : Bool := c = backtickChar

/-- Drop the longest trailing run of characters satisfying p: the tail half
of Python str.strip. -/
def stripEndL (p : Char → Bool) (l : List Char) : List Char :=
  (l.reverse.dropWhile p).reverse

/-- Python str.strip(chars) on a character list: drop the longest run of
p-characters from both ends. -/
def pyStripList (p : Char → Bool) (l : List Char) : List Char :=
  stripEndL p (l.dropWhile p)

/-- Python str.strip(chars) on a string. -/
def pyStrip (p : Char → Bool) (s : String) : String :=
  (pyStripList p s.toList).asString

/-! ### generate_sql -/

/-- The fixed instruction template of generate_sql with schema_info and the
question substituted, as produced by format_messages. -/
def promptText (schema_info user_question : String) : String :=
  "\n    You are an expert in MariaDB SQL. Convert the following natural language\n    question into a valid SQL query. The database schema is:\n    "
    ++ schema_info
    ++ "\n\n    Question: " ++ user_question
    ++ "\n\n    Return ONLY the SQL query, with no extra text or explanation.\n    "

/-- The cleanup line of generate_sql:
response.content.strip().strip(backtick). -/
def cleanSql (content : String) : String :=
  pyStrip isBacktickB (pyStrip pyIsSpaceB content)

/-- generate_sql: format the prompt, call the model (whose raise, if any,
escapes this function uncaught) and clean the response content. -/
def generate_sql (llm : Llm) (schema_info user_question : String) :
    Except String String :=
  match llm (promptText schema_info user_question) with
  | .error e => .error e
  | .ok content => .ok (cleanSql content)

/-! ### execute_query -/

/-- The dynamically typed first component of execute_query's return value:
either the list produced by fetchall() or the error string str(e). -/
inductive ExecResult where
  | rows (rs : List Row)
  | errstr (msg : String)
deriving DecidableEq

/-- The caller's isinstance(result, str) test on the first component. -/
def ExecResult.isStringVal : ExecResult → Bool
  | .errstr _ => true
  | .rows _ => false

/-- The result is a tabular (Success) value. -/
def ExecResult.successB : ExecResult → Bool
  | .rows _ => true
  | .errstr _ => false

/-- The result is an error-message (Failure) value. -/
def ExecResult.failureB : ExecResult → Bool
  | .rows _ => false
  | .errstr _ => true

/-- Column extraction of execute_query: the descriptor first components if
cursor.description is truthy, else the empty list (None and the empty
sequence are both falsy in Python). -/
def truthyCols : Option (List ColDesc) → List String
  | none => []
  | some [] => []
  | some (d :: ds) => (d :: ds).map ColDesc.name

/-- execute_query: run the SQL, fetch every row and read the column names
from the descriptor; on any raise return (str(e), []). -/
def execute_query (db : DbConn) (query : String) : ExecResult × List String :=
  match db query with
  | .error e => (.errstr e, [])
  | .ok cur => (.rows cur.rows, truthyCols cur.description)

/-- Whether the connection raises on this statement. -/
def dbRaises (db : DbConn) (query : String) : Bool :=
  match db query with
  | .error _ => true
  | .ok _ => false

/-! ### get_schema_info -/

/-- One element of the schema_info list built in the loop body. -/
def renderTable (table_name : String) (columns : List String) : String :=
  table_name ++ " (" ++ String.intercalate ", " columns ++ ")"

/-- The loop of get_schema_info over the table list: a DESCRIBE raise
anywhere aborts the whole loop with that exception. -/
def collectTables (meta : DbMeta) : List String → Except String (List String)
  | [] => .ok []
  | t :: ts =>
    match meta.describeTable t with
    | .error e => .error e
    | .ok columns =>
      match collectTables meta ts with
      | .error e => .error e
      | .ok rest => .ok (renderTable t columns :: rest)

/-- get_schema_info: render the table list, or return str(e) of the first
exception the metadata calls raise. -/
def get_schema_info (meta : DbMeta) : String :=
  match meta.showTables with
  | .error e => e
  | .ok tables =>
    match collectTables meta tables with
    | .error e => e
    | .ok parts => "Tables: " ++ String.intercalate ", " parts

/-- The exception raised inside the try block of get_schema_info, if any. -/
def schemaErr (meta : DbMeta) : Option String :=
  match meta.showTables with
  | .error e => some e
  | .ok tables =>
    match collectTables meta tables with
    | .error e => some e
    | .ok _ => none

/-! ### The chat handler and the transcript -/

/-- A transcript entry: a HumanMessage, or an AIMessage together with the
dataframe payload rendered with it (none when no st.dataframe call
accompanies the message). -/
inductive Turn where
  | userTurn (text : String)
  | assistantTurn (text : String) (payload : Option (List Row × List String))
deriving DecidableEq

/-- The session transcript st.session_state.chat_history. -/
abbrev Transcript := List Turn

/-- Whether a turn is an assistant (AIMessage) turn. -/
def Turn.isAssistant : Turn → Bool
  | .assistantTurn _ _ => true
  | .userTurn _ => false

/-- The number of assistant turns in a transcript. -/
def countAssistant (ts : Transcript) : Nat := ts.countP Turn.isAssistant

/-- The apostrophe character as a string. -/
def apos : String := (Char.ofNat 39).toString

/-- The synthetic greeting AIMessage that initializes chat_history. -/
def greeting : String :=
  "Hello! I" ++ apos
    ++ "m an Assistflow.ai SQL assistant. Ask me anything about your database."

/-- The transcript at session start. -/
def initHistory : Transcript := [Turn.assistantTurn greeting none]

/-- The response branch of the handler once the SQL string is in hand: run
it and append the assistant turn the code builds for the outcome; the
branch on the pair mirrors the isinstance(result, str) test. -/
def respond (db : DbConn) (history : Transcript) (sql : String) : Transcript :=
  match execute_query db sql with
  | (.errstr msg, _) =>
    history ++ [Turn.assistantTurn
      ("**Generated SQL**: `" ++ sql ++ "`\n\n**Error**: " ++ msg) none]
  | (.rows rs, columns) =>
    if rs.length > 0 then
      history ++ [Turn.assistantTurn
        ("**Generated SQL**: `" ++ sql ++ "`\n\n**Results**:")
        (some (rs, columns))]
    else
      history ++ [Turn.assistantTurn
        ("**Generated SQL**: `" ++ sql ++ "`\n\nNo results found.") none]

/-- The handler from the point where the schema string is in hand: translate
and, when translation does not raise, execute and respond.  The second
component is the exception escaping the handler, if any: the code has no
try/except around generate_sql, so a raise there aborts the script run with
the transcript as already mutated. -/
def answer_with_schema (llm : Llm) (db : DbConn) (history : Transcript)
    (schema_info user_question : String) : Transcript × Option String :=
  match generate_sql llm schema_info user_question with
  | .error e => (history, some e)
  | .ok sql => (respond db history sql, none)

/-- The body of the `if user_query:` block: append the user turn, inspect
the schema, translate, execute and append the assistant turn.  Returns the
transcript after the run together with the escaping exception, if any. -/
def user_query_handler (meta : DbMeta) (llm : Llm) (db : DbConn)
    (history : Transcript) (user_question : String) :
    Transcript × Option String :=
  answer_with_schema llm db (history ++ [Turn.userTurn user_question])
    (get_schema_info meta) user_question

/-! ### Substring and edge-character helpers (for stating the claims) -/

/-- The first list is an initial segment of the second. -/
def leadsWithL : List Char → List Char → Bool
  | [], _ => true
  | _ :: _, [] => false
  | a :: as, b :: bs => a = b && leadsWithL as bs

/-- The needle occurs as a contiguous run inside the haystack. -/
def hasSubstrL : List Char → List Char → Bool
  | needle, [] => leadsWithL needle []
  | needle, b :: bs => leadsWithL needle (b :: bs) || hasSubstrL needle bs

/-- String-level substring occurrence. -/
def hasSubstr (needle hay : String) : Bool := hasSubstrL needle.toList hay.toList

/-- The string s ends with the given tail. -/
def trailsWith (tl s : String) : Bool :=
  leadsWithL tl.toList.reverse s.toList.reverse

/-- No character at either end of s satisfies p. -/
def noEdgeB (p : Char → Bool) (s : String) : Bool :=
  (match s.toList.head? with
   | some c => !(p c)
   | none => true) &&
  (match s.toList.getLast? with
   | some c => !(p c)
   | none => true)

/-! ### Concrete fixtures (for counterexamples and witnesses) -/

/-- A database with the single table users(id, name), metadata calls
succeeding. -/
def meta_users : DbMeta :=
  { showTables := .ok ["users"]
    describeTable := fun t =>
      if t = "users" then .ok ["id", "name"]
      else .error ("1146 (42S02): Table " ++ t ++ " does not exist") }

/-- A connection whose metadata calls all raise. -/
def lostConnMsg : String :=
  "2013 (HY000): Lost connection to MySQL server during query"

/-- Metadata access that raises on SHOW TABLES. -/
def meta_broken : DbMeta :=
  { showTables := .error lostConnMsg
    describeTable := fun _ => .error lostConnMsg }

/-- A completion service that raises a network error. -/
def llm_network_error : Llm := fun _ => .error "network error"

/-- A completion service answering with whitespace nested inside the
surrounding backticks. -/
def llm_fenced : Llm := fun _ => .ok "` SELECT 1 `"

/-- A completion service answering with SQL against a missing table. -/
def llm_missing_table : Llm := fun _ => .ok "SELECT * FROM missing"

/-- A completion service answering with a plain statement. -/
def llm_select1 : Llm := fun _ => .ok "SELECT 1"

/-- The driver error text for the missing table. -/
def missingTableMsg : String :=
  "1146 (42S02): Table " ++ apos ++ "testdb.missing" ++ apos ++ " doesn"
    ++ apos ++ "t exist"

/-- A connection on which every statement raises the missing-table error. -/
def db_missing_table : DbConn := fun _ => .error missingTableMsg

/-- A cursor for a query that succeeds with zero rows and a two-column
descriptor. -/
def cursor_empty : Cursor :=
  { rows := [], description := some [⟨"id", 3⟩, ⟨"name", 253⟩] }

/-- A connection on which every statement succeeds with zero rows. -/
def db_empty_result : DbConn := fun _ => .ok cursor_empty

/-! ### Helper lemmas on the string helpers -/

/-- The head of dropWhile p never satisfies p. -/
theorem dropWhile_head?_not (p : Char → Bool) (l : List Char) (c : Char)
    (h : (l.dropWhile p).head? = some c) : p c = false := by
  induction l with
  | nil => simp [List.dropWhile] at h
  | cons a t ih =>
    rw [List.dropWhile_cons] at h
    cases hpa : p a with
    | true => rw [if_pos hpa] at h; exact ih h
    | false =>
      rw [if_neg (by simp [hpa])] at h
      have hac : a = c := by simpa using h
      rw [← hac]
      exact hpa

/-- Stripping trailing characters preserves the head when nonempty. -/
theorem head?_stripEndL (p : Char → Bool) (l : List Char) (c : Char)
    (h : (stripEndL p l).head? = some c) : l.head? = some c := by
  obtain ⟨t, ht⟩ := List.dropWhile_suffix (l := l.reverse) p
  have hl : l = (l.reverse.dropWhile p).reverse ++ t.reverse := by
    have hrev := congrArg List.reverse ht
    simpa [List.reverse_append] using hrev.symm
  rw [hl, List.head?_append]
  unfold stripEndL at h
  rw [h]
  rfl

/-- The last character after stripping trailing p-characters never
satisfies p. -/
theorem getLast?_stripEndL_not (p : Char → Bool) (l : List Char) (c : Char)
    (h : (stripEndL p l).getLast? = some c) : p c = false := by
  unfold stripEndL at h
  rw [List.getLast?_reverse] at h
  exact dropWhile_head?_not p _ c h

/-- The head after a two-sided strip never satisfies p. -/
theorem pyStripList_head?_not (p : Char → Bool) (l : List Char) (c : Char)
    (h : (pyStripList p l).head? = some c) : p c = false := by
  unfold pyStripList at h
  exact dropWhile_head?_not p l c (head?_stripEndL p _ c h)

/-- The last character after a two-sided strip never satisfies p. -/
theorem pyStripList_getLast?_not (p : Char → Bool) (l : List Char) (c : Char)
    (h : (pyStripList p l).getLast? = some c) : p c = false := by
  unfold pyStripList at h
  exact getLast?_stripEndL_not p _ c h

/-- A two-sided strip leaves no p-character at either end. -/
theorem noEdgeB_pyStrip (p : Char → Bool) (l : List Char) :
    noEdgeB p (pyStripList p l).asString = true := by
  unfold noEdgeB
  rw [List.toList_asString]
  rw [Bool.and_eq_true]
  constructor
  · cases hh : (pyStripList p l).head? with
    | none => rfl
    | some c => simp [pyStripList_head?_not p l c hh]
  · cases hg : (pyStripList p l).getLast? with
    | none => rfl
    | some c => simp [pyStripList_getLast?_not p l c hg]

/-- A list is an initial segment of itself extended on the right. -/
theorem leadsWithL_append (n b : List Char) : leadsWithL n (n ++ b) = true := by
  induction n with
  | nil => rfl
  | cons a as ih => simp [leadsWithL, ih]

/-- An initial segment is in particular a substring. -/
theorem hasSubstrL_of_leadsWith (n h : List Char) (hl : leadsWithL n h = true) :
    hasSubstrL n h = true := by
  cases h with
  | nil => simpa [hasSubstrL] using hl
  | cons b bs => simp [hasSubstrL, hl]

/-- A middle segment is a substring. -/
theorem hasSubstrL_append_mid (a n b : List Char) :
    hasSubstrL n (a ++ (n ++ b)) = true := by
  induction a with
  | nil => exact hasSubstrL_of_leadsWith n (n ++ b) (leadsWithL_append n b)
  | cons c cs ih => simp [hasSubstrL, ih]

/-- A middle segment of a string is a substring of it. -/
theorem hasSubstr_append (a n b : String) : hasSubstr n (a ++ (n ++ b)) = true := by
  unfold hasSubstr
  have h1 : (a ++ (n ++ b)).toList = a.toList ++ (n.toList ++ b.toList) := rfl
  rw [h1]
  exact hasSubstrL_append_mid a.toList n.toList b.toList

/-- A string ends with its appended tail. -/
theorem trailsWith_append (a tl : String) : trailsWith tl (a ++ tl) = true := by
  unfold trailsWith
  have h1 : (a ++ tl).toList = a.toList ++ tl.toList := rfl
  rw [h1, List.reverse_append]
  exact leadsWithL_append tl.toList.reverse a.toList.reverse

/-! ### Claim C2 -/

/-- C2 (counterexample): the claim that translate returns a string with no
leading or trailing whitespace fails: on the model response consisting of
whitespace nested inside surrounding backticks, generate_sql returns a
string with a leading and a trailing space, because the backtick strip runs
after the whitespace strip and exposes the interior whitespace. -/
theorem cleaned_sql_whitespace_cex :
    generate_sql llm_fenced "Tables: users (id, name)"
        "How many rows in the users table?" = Except.ok " SELECT 1 " ∧
    noEdgeB pyIsSpaceB " SELECT 1 " = false :=
  ⟨rfl, by decide⟩

/-- C2 (amended): every string that generate_sql returns has no leading and
no trailing backtick characters (the whitespace half of the claim fails,
see the counterexample). -/
theorem cleaned_sql_no_backtick_edges (llm : Llm)
    (schema_info user_question sql : String)
    (h : generate_sql llm schema_info user_question = Except.ok sql) :
    noEdgeB isBacktickB sql = true := by
  unfold generate_sql at h
  cases hr : llm (promptText schema_info user_question) with
  | error e => rw [hr] at h; cases h
  | ok content =>
    rw [hr] at h
    have hsql : sql = cleanSql content := by cases h; rfl
    subst hsql
    exact noEdgeB_pyStrip isBacktickB ((pyStrip pyIsSpaceB content).toList)

/-- C2 (witness): the amended theorem applied to a concrete model response. -/
theorem cleaned_sql_no_backtick_edges_wit :
    noEdgeB isBacktickB " SELECT 1 " = true :=
  cleaned_sql_no_backtick_edges llm_fenced "Tables: users (id, name)"
    "How many rows in the users table?" " SELECT 1 " rfl

/-! ### Claim C3 -/

/-- C3: execute_query never raises past its boundary: its first component
is tagged Success (a row list) exactly when it is not tagged Failure (an
error string), and whenever the connection raises, the returned value is
exactly the Failure carrying the driver's error text str(e), paired with an
empty column list. -/
theorem execute_query_never_raises (db : DbConn) (sql : String) :
    (execute_query db sql).1.successB = !(execute_query db sql).1.failureB ∧
    ∀ e, db sql = Except.error e →
      execute_query db sql = (ExecResult.errstr e, []) := by
  constructor
  · cases h : db sql <;>
      simp [execute_query, h, ExecResult.successB, ExecResult.failureB]
  · intro e he
    simp [execute_query, he]

/-- C3 (witness): the theorem applied to a connection raising the
missing-table error. -/
theorem execute_query_never_raises_wit :
    (execute_query db_missing_table "SELECT 2").1.successB
        = !(execute_query db_missing_table "SELECT 2").1.failureB ∧
    execute_query db_missing_table "SELECT 2"
        = (ExecResult.errstr missingTableMsg, []) :=
  ⟨(execute_query_never_raises db_missing_table "SELECT 2").1,
   (execute_query_never_raises db_missing_table "SELECT 2").2
     missingTableMsg rfl⟩

/-! ### Claim C9 -/

/-- C9: on a successful execution the returned column list is empty when
the statement produces no descriptor, and otherwise is the list of names
taken from the descriptor (Python truthiness makes the empty descriptor
case agree with the mapped names). -/
theorem columns_from_descriptor (db : DbConn) (sql : String) (cur : Cursor)
    (h : db sql = Except.ok cur) :
    (execute_query db sql).2 = (cur.description.getD []).map ColDesc.name := by
  simp only [execute_query, h]
  cases hd : cur.description with
  | none => rfl
  | some ds => cases ds with
    | nil => rfl
    | cons d ds' => rfl

/-- C9 (witness): the theorem applied to a zero-row result with a two-column
descriptor. -/
theorem columns_from_descriptor_wit :
    (execute_query db_empty_result "SELECT id, name FROM users").2
        = ["id", "name"] :=
  (columns_from_descriptor db_empty_result "SELECT id, name FROM users"
      cursor_empty rfl).trans (by decide)

/-! ### Claim C10 -/

/-- C10: the caller's isinstance(result, str) test discriminates exactly:
the first component of execute_query is a string precisely when the
connection raised; on failure the pair is (error text, empty list), and on
success the first component is the fetchall row list, which is never a
string. -/
theorem isinstance_discrimination (db : DbConn) (sql : String) :
    (execute_query db sql).1.isStringVal = dbRaises db sql ∧
    (∀ e, db sql = Except.error e →
      execute_query db sql = (ExecResult.errstr e, [])) ∧
    (∀ cur, db sql = Except.ok cur →
      (execute_query db sql).1 = ExecResult.rows cur.rows ∧
      (ExecResult.rows cur.rows).isStringVal = false) := by
  refine ⟨?_, ?_, ?_⟩
  · cases h : db sql <;>
      simp [execute_query, dbRaises, h, ExecResult.isStringVal]
  · intro e he
    simp [execute_query, he]
  · intro cur hc
    simp [execute_query, hc, ExecResult.isStringVal]

/-- C10 (witness): the theorem applied to a raising connection and to a
succeeding one. -/
theorem isinstance_discrimination_wit :
    (execute_query db_missing_table "SELECT 3").1.isStringVal
        = dbRaises db_missing_table "SELECT 3" ∧
    execute_query db_missing_table "SELECT 3"
        = (ExecResult.errstr missingTableMsg, []) ∧
    (execute_query db_empty_result "SELECT 3").1
        = ExecResult.rows cursor_empty.rows :=
  ⟨(isinstance_discrimination db_missing_table "SELECT 3").1,
   (isinstance_discrimination db_missing_table "SELECT 3").2.1
     missingTableMsg rfl,
   ((isinstance_discrimination db_empty_result "SELECT 3").2.2
     cursor_empty rfl).1⟩

/-! ### Claim C5 -/

/-- C5: when every metadata call succeeds, get_schema_info returns exactly
the string Tables: t1 (c1, c2, ...), t2 (c1, ...), ... over the tables and
columns in database-reported order. -/
theorem schema_format (meta : DbMeta) (tables : List String)
    (cols : String → List String)
    (h1 : meta.showTables = Except.ok tables)
    (h2 : ∀ t ∈ tables, meta.describeTable t = Except.ok (cols t)) :
    get_schema_info meta =
      "Tables: " ++ String.intercalate ", "
        (tables.map (fun t => renderTable t (cols t))) := by
  have hc : ∀ ts, (∀ t ∈ ts, meta.describeTable t = Except.ok (cols t)) →
      collectTables meta ts
        = Except.ok (ts.map (fun t => renderTable t (cols t))) := by
    intro ts
    induction ts with
    | nil => intro _; rfl
    | cons t ts' ih =>
      intro hts
      have h0 : meta.describeTable t = Except.ok (cols t) := hts t (by simp)
      have h1' := ih (fun x hx => hts x (by simp [hx]))
      simp [collectTables, h0, h1']
  simp [get_schema_info, h1, hc tables h2]

/-- C5 (witness): against the single-table database users(id, name) the
schema string is exactly the one the spec requires. -/
theorem schema_format_wit :
    get_schema_info meta_users = "Tables: users (id, name)" :=
  (schema_format meta_users ["users"] (fun _ => ["id", "name"]) rfl
      (by intro t ht; simp only [List.mem_singleton] at ht; subst ht; rfl)).trans
    (by decide)

/-! ### Claim C7 -/

/-- C7: if any metadata call inside get_schema_info raises, the function
does not raise but returns the textual error description in place of the
schema, and the handler then passes that degraded string downstream to the
translation step exactly as it would a valid schema string. -/
theorem schema_error_degrades (meta : DbMeta) (llm : Llm) (db : DbConn)
    (history : Transcript) (q e : String)
    (h : schemaErr meta = some e) :
    get_schema_info meta = e ∧
    user_query_handler meta llm db history q =
      answer_with_schema llm db (history ++ [Turn.userTurn q]) e q := by
  have hg : get_schema_info meta = e := by
    unfold schemaErr at h
    cases hst : meta.showTables with
    | error e' =>
      simp only [hst, Option.some.injEq] at h
      simp [get_schema_info, hst, h]
    | ok tables =>
      simp only [hst] at h
      cases hct : collectTables meta tables with
      | error e' =>
        simp only [hct, Option.some.injEq] at h
        simp [get_schema_info, hst, hct, h]
      | ok parts =>
        simp only [hct] at h
        exact Option.noConfusion h
  exact ⟨hg, by unfold user_query_handler; rw [hg]⟩

/-- C7 (witness): the theorem applied to metadata access that raises a
lost-connection error on SHOW TABLES. -/
theorem schema_error_degrades_wit :
    get_schema_info meta_broken = lostConnMsg ∧
    user_query_handler meta_broken llm_select1 db_empty_result initHistory
        "q7" =
      answer_with_schema llm_select1 db_empty_result
        (initHistory ++ [Turn.userTurn "q7"]) lostConnMsg "q7" :=
  schema_error_degrades meta_broken llm_select1 db_empty_result initHistory
    "q7" lostConnMsg rfl

/-! ### Claim C8 -/

/-- C8: two calls to get_schema_info against a database whose reported
metadata is unchanged return identical strings. -/
theorem describe_schema_idempotent (m1 m2 : DbMeta) (h : m1 = m2) :
    get_schema_info m1 = get_schema_info m2 := by
  rw [h]

/-- C8 (witness): the theorem applied to two calls on the users(id, name)
database. -/
theorem describe_schema_idempotent_wit :
    get_schema_info meta_users = get_schema_info meta_users :=
  describe_schema_idempotent meta_users meta_users rfl

/-! ### Claim C1 -/

/-- C1 (counterexample): when the completion service raises a network
error, the handler does not append an error-reporting AssistantTurn: the
exception escapes (second component some) and the transcript gains no new
AssistantTurn at all, contradicting the claim. -/
theorem translate_raise_escapes_cex :
    (user_query_handler meta_users llm_network_error db_missing_table
        initHistory "How many rows in the users table?").2
      = some "network error" ∧
    countAssistant (user_query_handler meta_users llm_network_error
        db_missing_table initHistory "How many rows in the users table?").1
      = countAssistant initHistory := by
  refine ⟨rfl, rfl⟩

/-- C1 (amended): when the translation step raises, the handler lets the
exception escape uncaught; the transcript keeps only the newly appended
UserTurn, and in particular gains no AssistantTurn.  (The transcript itself
persists, so a next question can still be submitted against it.) -/
theorem translate_raise_escapes (meta : DbMeta) (llm : Llm) (db : DbConn)
    (history : Transcript) (q e : String)
    (h : generate_sql llm (get_schema_info meta) q = Except.error e) :
    user_query_handler meta llm db history q
      = (history ++ [Turn.userTurn q], some e) ∧
    countAssistant (user_query_handler meta llm db history q).1
      = countAssistant history := by
  have h1 : user_query_handler meta llm db history q
      = (history ++ [Turn.userTurn q], some e) := by
    unfold user_query_handler answer_with_schema
    simp only [h]
  refine ⟨h1, ?_⟩
  rw [h1]
  simp [countAssistant, List.countP_append, List.countP_cons, Turn.isAssistant]

/-- C1 (witness): the amended theorem applied to a raising completion
service. -/
theorem translate_raise_escapes_wit :
    user_query_handler meta_users llm_network_error db_empty_result
        initHistory "q1"
      = (initHistory ++ [Turn.userTurn "q1"], some "network error") ∧
    countAssistant (user_query_handler meta_users llm_network_error
        db_empty_result initHistory "q1").1
      = countAssistant initHistory :=
  translate_raise_escapes meta_users llm_network_error db_empty_result
    initHistory "q1" "network error" rfl

/-! ### Claim C4 -/

/-- C4 (counterexample): in a run whose generated SQL hits a missing table,
the transcript's last entry is the markdown-formatted error AssistantTurn;
its text is not the plain "Generated SQL: ... Error: ..." text the claim
states, and it does not contain the substring "Error:" at all. -/
theorem failure_turn_format_cex :
    (user_query_handler meta_users llm_missing_table db_missing_table
        initHistory "List the missing table").1.getLast?
      = some (Turn.assistantTurn
          ("**Generated SQL**: `SELECT * FROM missing`\n\n**Error**: "
            ++ missingTableMsg) none) ∧
    hasSubstr "Error:"
      ("**Generated SQL**: `SELECT * FROM missing`\n\n**Error**: "
        ++ missingTableMsg) = false ∧
    ("**Generated SQL**: `SELECT * FROM missing`\n\n**Error**: "
        ++ missingTableMsg)
      ≠ ("Generated SQL: SELECT * FROM missing\n\nError: "
        ++ missingTableMsg) := by
  refine ⟨rfl, by decide, by decide⟩

/-- C4 (amended): when execution fails, the appended AssistantTurn carries
the markdown text "**Generated SQL**: `<sql>`\n\n**Error**: <message>" and
no payload; the transcript's last entry hence contains the substring
"**Error**: " (not the plain "Error:"). -/
theorem failure_turn_format (meta : DbMeta) (llm : Llm) (db : DbConn)
    (history : Transcript) (q sql msg : String)
    (hsql : generate_sql llm (get_schema_info meta) q = Except.ok sql)
    (hdb : db sql = Except.error msg) :
    user_query_handler meta llm db history q =
      (history ++ [Turn.userTurn q,
        Turn.assistantTurn
          ("**Generated SQL**: `" ++ sql ++ "`\n\n**Error**: " ++ msg) none],
       none) ∧
    hasSubstr "**Error**: "
      ("**Generated SQL**: `" ++ sql ++ "`\n\n**Error**: " ++ msg) = true := by
  constructor
  · unfold user_query_handler answer_with_schema
    simp only [hsql]
    unfold respond execute_query
    simp only [hdb]
    simp
  · have hB : ("`\n\n**Error**: " : String) = "`\n\n" ++ "**Error**: " := rfl
    rw [hB]
    have hre : "**Generated SQL**: `" ++ sql ++ ("`\n\n" ++ "**Error**: ")
          ++ msg
        = ("**Generated SQL**: `" ++ sql ++ "`\n\n")
          ++ ("**Error**: " ++ msg) := by
      simp only [String.append_assoc]
    rw [hre]
    exact hasSubstr_append _ _ _

/-- C4 (witness): the amended theorem applied to a concrete missing-table
run. -/
theorem failure_turn_format_wit :
    user_query_handler meta_users llm_missing_table db_missing_table
        initHistory "wq4" =
      (initHistory ++ [Turn.userTurn "wq4",
        Turn.assistantTurn
          ("**Generated SQL**: `" ++ "SELECT * FROM missing"
            ++ "`\n\n**Error**: " ++ missingTableMsg) none],
       none) ∧
    hasSubstr "**Error**: "
      ("**Generated SQL**: `" ++ "SELECT * FROM missing"
        ++ "`\n\n**Error**: " ++ missingTableMsg) = true :=
  failure_turn_format meta_users llm_missing_table db_missing_table
    initHistory "wq4" "SELECT * FROM missing" missingTableMsg rfl rfl

/-! ### Claim C6 -/

/-- C6 (counterexample): on a successful zero-row execution, the appended
AssistantTurn's text is the markdown-formatted message, not the plain
"Generated SQL: <sql>\n\nNo results found." text the claim states. -/
theorem zero_rows_turn_format_cex :
    (user_query_handler meta_users llm_select1 db_empty_result initHistory
        "How many customers?").1.getLast?
      = some (Turn.assistantTurn
          "**Generated SQL**: `SELECT 1`\n\nNo results found." none) ∧
    ("**Generated SQL**: `SELECT 1`\n\nNo results found." : String)
      ≠ "Generated SQL: SELECT 1\n\nNo results found." :=
  ⟨rfl, by decide⟩

/-- C6 (amended): when execution succeeds with zero rows, the appended
AssistantTurn has text "**Generated SQL**: `<sql>`\n\nNo results found.",
ends in "No results found." and carries no tabular payload. -/
theorem zero_rows_turn_format (meta : DbMeta) (llm : Llm) (db : DbConn)
    (history : Transcript) (q sql : String) (cur : Cursor)
    (hsql : generate_sql llm (get_schema_info meta) q = Except.ok sql)
    (hdb : db sql = Except.ok cur)
    (hrows : cur.rows = []) :
    user_query_handler meta llm db history q =
      (history ++ [Turn.userTurn q,
        Turn.assistantTurn
          ("**Generated SQL**: `" ++ sql ++ "`\n\nNo results found.") none],
       none) ∧
    trailsWith "No results found."
      ("**Generated SQL**: `" ++ sql ++ "`\n\nNo results found.") = true := by
  constructor
  · unfold user_query_handler answer_with_schema
    simp only [hsql]
    unfold respond execute_query
    simp only [hdb, hrows]
    simp
  · have hB : ("`\n\nNo results found." : String)
        = "`\n\n" ++ "No results found." := rfl
    rw [hB]
    have hre : "**Generated SQL**: `" ++ sql
          ++ ("`\n\n" ++ "No results found.")
        = ("**Generated SQL**: `" ++ sql ++ "`\n\n")
          ++ "No results found." := by
      simp only [String.append_assoc]
    rw [hre]
    exact trailsWith_append _ _

/-- C6 (witness): the amended theorem applied to a concrete zero-row run. -/
theorem zero_rows_turn_format_wit :
    user_query_handler meta_users llm_select1 db_empty_result initHistory
        "wq6" =
      (initHistory ++ [Turn.userTurn "wq6",
        Turn.assistantTurn
          ("**Generated SQL**: `" ++ "SELECT 1"
            ++ "`\n\nNo results found.") none],
       none) ∧
    trailsWith "No results found."
      ("**Generated SQL**: `" ++ "SELECT 1" ++ "`\n\nNo results found.")
      = true :=
  zero_rows_turn_format meta_users llm_select1 db_empty_result initHistory
    "wq6" "SELECT 1" cursor_empty rfl rfl rfl

end AssistFlow
